import Mathlib

/-!
Verification of the CoreAstra safety-gated command execution pipeline
(frontend sources: the Terminal component, the App approval flow, the
ApprovalModal component, the shared types module, and the API service).

The backend service (Python) is not part of the sources; everything here
is a shallow embedding of the TypeScript frontend.  Stateful React
components become explicit state records; API calls become an explicit
trace of requests; collaborator results (analyze / execute / cd) are
supplied through an environment record, so that the frontend control
flow is a pure function of state, input and environment.
-/

namespace CoreAstra

/-! ## Shared types module (types.ts)

The shared RiskLevel union is four-valued: low, medium, high, critical.
-/

inductive RiskLevel
  | low
  | medium
  | high
  | critical
deriving DecidableEq

/-- The member strings of the RiskLevel union in the shared types module. -/
def typesRiskLevelStrings : List String :=
  [("low"), ("medium"), ("high"), ("critical")]

/-- CommandAnalysis as declared in the shared types module (the shape the
Terminal component imports): command, is_risky, risk_level, reason,
affected_paths, requires_confirmation, backup_recommended. -/
structure CommandAnalysis where
  command : String
  is_risky : Bool
  risk_level : RiskLevel
  reason : String
  affected_paths : List String
  requires_confirmation : Bool
  backup_recommended : Bool
deriving DecidableEq

/-- The field names of the shared CommandAnalysis interface. -/
def typesCommandAnalysisFields : List String :=
  [("command"), ("is_risky"), ("risk_level"), ("reason"),
   ("affected_paths"), ("requires_confirmation"), ("backup_recommended")]

/-- Discriminator values of the CommandResult union in the shared types
module: output, execution_complete, error, confirmation_required,
execution_start. -/
inductive CommandResultType
  | output
  | execution_complete
  | error
  | confirmation_required
  | execution_start
deriving DecidableEq

/-- The member strings of the CommandResult type discriminator union. -/
def commandResultTypeStrings : List String :=
  [("output"), ("execution_complete"), ("error"),
   ("confirmation_required"), ("execution_start")]

inductive StreamName
  | stdout
  | stderr
deriving DecidableEq

/-- CommandResult events delivered on the execute stream (optional fields
are Option; absent means the JSON field was not present). -/
structure CommandResult where
  type : CommandResultType
  stream : Option StreamName := none
  content : Option String := none
  exit_code : Option Int := none
  success : Option Bool := none
  message : Option String := none
  backups : Option (List (String × String)) := none
deriving DecidableEq

inductive LineType
  | input
  | output
  | error
  | info
  | warning
deriving DecidableEq

/-- A terminal line (the uuid id and wall-clock timestamp of the source
record are nondeterministic and carry no logic; type and content do). -/
structure TerminalLine where
  type : LineType
  content : String
deriving DecidableEq

/-! ## API service (services/api.ts)

Requests issued against the backend are recorded as a trace. -/

inductive ApiCall
  | analyzeReq (command : String)
  | executeReq (command : String) (confirmed : Bool) (create_backup : Bool)
  | cdReq (path : String)
deriving DecidableEq

/-- terminalApi.execute posts the body
\x7b command, confirmed, create_backup: true \x7d: the create_backup field
is hardcoded to true in the request body, and the function takes no
create-backup parameter at all. -/
def terminalApiExecute (command : String) (confirmed : Bool) : ApiCall :=
  ApiCall.executeReq command confirmed true

/-! ## JavaScript string primitives

The JS methods trim / startsWith / slice are modelled over the character
list of the string so that concrete invocations reduce inside the
kernel. -/

/-- JS String.prototype.trim: strip leading and trailing whitespace. -/
def jsTrim (s : String) : String :=
  ⟨((s.data.dropWhile Char.isWhitespace).reverse.dropWhile Char.isWhitespace).reverse⟩

/-- JS String.prototype.startsWith. -/
def jsStartsWith (s p : String) : Bool :=
  decide (s.data.take p.data.length = p.data)

/-- JS String.prototype.slice(n) for a non-negative index. -/
def jsDrop (s : String) (n : Nat) : String :=
  ⟨s.data.drop n⟩

/-! ## Terminal component (Terminal.tsx) -/

/-- The confirmDialog state object of the Terminal component.
(The source field named open is rendered isOpen; open is a Lean keyword.) -/
structure ConfirmDialog where
  isOpen : Bool
  command : String
  analysis : Option CommandAnalysis
deriving DecidableEq

structure TerminalState where
  lines : List TerminalLine
  currentDir : String
  isExecuting : Bool
  history : List String
  historyIndex : Int
  confirmDialog : ConfirmDialog
deriving DecidableEq

/-- addLine appends one line to the terminal output. -/
def addLine (st : TerminalState) (t : LineType) (content : String) : TerminalState :=
  { st with lines := st.lines ++ [⟨t, content⟩] }

/-- Collaborator outcomes for one handleCommand invocation: what
terminalApi.analyze returns (or throws), what terminalApi.changeDirectory
returns (or throws), and what terminalApi.execute delivers to onData (or
throws). -/
structure Env where
  analyzeResult : Except String CommandAnalysis
  cdResult : Except String String
  executeOutcome : Except String (List CommandResult)

/-- The onData dispatcher inside handleCommand: output chunks become
output/error lines, a failed execution_complete adds an error line, error
events add an error line, execution_start with a nonempty backups list
adds an info line; any other event type matches no branch and changes
nothing. -/
def processEvent (st : TerminalState) (data : CommandResult) : TerminalState :=
  if data.type = CommandResultType.output then
    addLine st
      (if data.stream = some StreamName.stderr then LineType.error else LineType.output)
      (data.content.getD (""))
  else if data.type = CommandResultType.execution_complete then
    if data.success.getD false = false then
      addLine st LineType.error
        (("Command exited with code ") ++ toString (data.exit_code.getD 0))
    else st
  else if data.type = CommandResultType.error then
    addLine st LineType.error (("Error: ") ++ data.message.getD (""))
  else if data.type = CommandResultType.execution_start ∧ (data.backups.getD []).length ≠ 0 then
    addLine st LineType.info
      (("Created ") ++ toString (data.backups.getD []).length ++ (" backup(s) before execution"))
  else st

/-- The execution phase of handleCommand: set isExecuting, call
terminalApi.execute feeding every streamed event to the onData dispatcher
(or add an error line if execute throws), finally clear isExecuting. -/
def runExecution (env : Env) (st : TerminalState) (command : String)
    (confirmed : Bool) : TerminalState × List ApiCall :=
  let st1 := { st with isExecuting := true }
  match env.executeOutcome with
  | Except.ok events =>
      let st2 := events.foldl processEvent st1
      ({ st2 with isExecuting := false }, [terminalApiExecute command confirmed])
  | Except.error msg =>
      let st2 := addLine st1 LineType.error (("Execution failed: ") ++ msg)
      ({ st2 with isExecuting := false }, [terminalApiExecute command confirmed])

/-- handleCommand(command, confirmed = false): blank input returns at
once; otherwise the history is deduplicated-and-appended; clear/cls wipe
the screen; a cd command goes to terminalApi.changeDirectory; every other
command is echoed, then (when not confirmed) analyzed — a
requires_confirmation analysis opens the confirmation dialog and returns,
an analysis failure is logged and execution proceeds — and finally
executed. -/
def handleCommand (env : Env) (st : TerminalState) (command : String)
    (confirmed : Bool) : TerminalState × List ApiCall :=
  if jsTrim command = ("") then (st, [])
  else
    let st1 := { st with
      history := st.history.filter (fun c => c ≠ command) ++ [command],
      historyIndex := -1 }
    let trimmedCommand := jsTrim command
    if trimmedCommand = ("clear") ∨ trimmedCommand = ("cls") then
      ({ st1 with lines := [] }, [])
    else if jsStartsWith trimmedCommand ("cd ") then
      let path := jsTrim (jsDrop trimmedCommand 3)
      match env.cdResult with
      | Except.ok newPath =>
          (addLine { st1 with currentDir := newPath } LineType.info
            (("Changed directory to: ") ++ newPath), [ApiCall.cdReq path])
      | Except.error e =>
          (addLine st1 LineType.error (("Error: ") ++ e), [ApiCall.cdReq path])
    else
      let st2 := addLine st1 LineType.input (st1.currentDir ++ ("> ") ++ command)
      if confirmed then
        runExecution env st2 command confirmed
      else
        match env.analyzeResult with
        | Except.ok analysis =>
            if analysis.requires_confirmation then
              ({ st2 with confirmDialog := ⟨true, command, some analysis⟩ },
               [ApiCall.analyzeReq command])
            else
              let r := runExecution env st2 command confirmed
              (r.1, ApiCall.analyzeReq command :: r.2)
        | Except.error _ =>
            let r := runExecution env st2 command confirmed
            (r.1, ApiCall.analyzeReq command :: r.2)

/-- handleConfirmExecution: close the dialog and re-invoke handleCommand
on the pending command with confirmed = true.  It takes no clock and
performs no elapsed-time comparison. -/
def handleConfirmExecution (env : Env) (st : TerminalState) : TerminalState × List ApiCall :=
  let command := st.confirmDialog.command
  let st1 := { st with confirmDialog := ⟨false, (""), none⟩ }
  handleCommand env st1 command true

/-- The send IconButton of the Terminal is disabled while executing or
while the input is blank. -/
def sendButtonDisabled (st : TerminalState) (input : String) : Bool :=
  st.isExecuting || jsTrim input = ("")

/-- The input TextField of the Terminal is disabled while executing. -/
def inputFieldDisabled (st : TerminalState) : Bool :=
  st.isExecuting

/-! ## App component (App.tsx) and ApprovalModal (ApprovalModal.tsx)

Both declare a local CommandAnalysis interface with a five-valued
risk_level union (it adds safe) and the fields risk_score, category,
actions, affected_paths, reversible, requires_sudo, warnings,
recommendations. -/

inductive AppRiskLevel
  | safe
  | low
  | medium
  | high
  | critical
deriving DecidableEq

/-- The member strings of the local risk_level union in App.tsx and
ApprovalModal.tsx. -/
def modalRiskLevelStrings : List String :=
  [("safe"), ("low"), ("medium"), ("high"), ("critical")]

/-- Embedding of the shared four-valued RiskLevel into the local
five-valued union. -/
def RiskLevel.toApp : RiskLevel → AppRiskLevel
  | RiskLevel.low => AppRiskLevel.low
  | RiskLevel.medium => AppRiskLevel.medium
  | RiskLevel.high => AppRiskLevel.high
  | RiskLevel.critical => AppRiskLevel.critical

/-- The local CommandAnalysis interface of App.tsx / ApprovalModal.tsx. -/
structure AppCommandAnalysis where
  risk_level : AppRiskLevel
  risk_score : Nat
  category : String
  actions : List String
  affected_paths : List String
  reversible : Bool
  requires_sudo : Bool
  warnings : List String
  recommendations : List String
deriving DecidableEq

/-- The field names of the local CommandAnalysis interface. -/
def modalCommandAnalysisFields : List String :=
  [("risk_level"), ("risk_score"), ("category"), ("actions"),
   ("affected_paths"), ("reversible"), ("requires_sudo"),
   ("warnings"), ("recommendations")]

/-- App-level state: active tab and the approval-modal state. -/
structure AppState where
  activeTab : String
  approvalModalOpen : Bool
  pendingCommand : Option String
  commandAnalysis : Option AppCommandAnalysis
  approvalLoading : Bool
deriving DecidableEq

/-- handleRunCommand: switch to the terminal tab, analyze the command,
and open the approval modal exactly when the analysis reports high or
critical risk; for any other risk level (or an analysis failure) the
function only logs and leaves execution to the Terminal component. -/
def handleRunCommand (analyzeResult : Except String AppCommandAnalysis)
    (st : AppState) (command : String) : AppState × List ApiCall :=
  let st1 := { st with activeTab := ("terminal") }
  match analyzeResult with
  | Except.ok analysis =>
      if analysis.risk_level = AppRiskLevel.high ∨
         analysis.risk_level = AppRiskLevel.critical then
        ({ st1 with
            pendingCommand := some command,
            commandAnalysis := some analysis,
            approvalModalOpen := true },
         [ApiCall.analyzeReq command])
      else
        (st1, [ApiCall.analyzeReq command])
  | Except.error _ =>
      (st1, [ApiCall.analyzeReq command])

/-- handleApproveCommand(createBackup): if a command is pending, call
terminalApi.execute(pendingCommand, true, log).  The createBackup
argument is received but not forwarded anywhere; the request body's
create_backup is whatever terminalApi.execute puts there. -/
def handleApproveCommand (executeOutcome : Except String Unit)
    (st : AppState) (createBackup : Bool) : AppState × List ApiCall :=
  match st.pendingCommand with
  | none => (st, [])
  | some pending =>
      match executeOutcome with
      | Except.ok _ =>
          ({ st with
              approvalModalOpen := false,
              pendingCommand := none,
              commandAnalysis := none,
              approvalLoading := false },
           [terminalApiExecute pending true])
      | Except.error _ =>
          ({ st with approvalLoading := false },
           [terminalApiExecute pending true])

/-- handleRejectCommand closes the modal and clears the pending command;
no request is issued. -/
def handleRejectCommand (st : AppState) : AppState × List ApiCall :=
  ({ st with
      approvalModalOpen := false,
      pendingCommand := none,
      commandAnalysis := none }, [])

/-- The ApprovalModal countdown effect: when the modal opens on a
critical analysis the countdown state is set to 5, otherwise to null. -/
def initialCountdown (modalOpen : Bool) (analysis : Option AppCommandAnalysis) :
    Option Nat :=
  if modalOpen ∧ (analysis.map (fun a => a.risk_level)) = some AppRiskLevel.critical then
    some 5
  else
    none

/-- One tick of the countdown timer (fires while countdown > 0). -/
def countdownTick : Option Nat → Option Nat
  | some (n + 1) => some n
  | c => c

/-- The Approve button of the ApprovalModal is disabled while loading or
while the countdown is non-null and positive — this is the only place
the cool-down exists. -/
def approveButtonDisabled (loading : Bool) (countdown : Option Nat) : Bool :=
  loading || (match countdown with
              | some n => decide (0 < n)
              | none => false)

/-! ## Concrete fixtures used by witnesses and counterexamples -/

/-- A critical, confirmation-requiring analysis (Scenario A shape). -/
def rmAnalysis : CommandAnalysis :=
  { command := ("rm -rf /tmp/project")
    is_risky := true
    risk_level := RiskLevel.critical
    reason := ("Recursive deletion of a directory")
    affected_paths := [("/tmp/project")]
    requires_confirmation := true
    backup_recommended := true }

/-- A safe analysis that does not require confirmation (Scenario B shape
over the shared types module, whose risk_level union has no safe value:
low is its least member). -/
def lsAnalysis : CommandAnalysis :=
  { command := ("ls -la")
    is_risky := false
    risk_level := RiskLevel.low
    reason := ("Read-only listing")
    affected_paths := []
    requires_confirmation := false
    backup_recommended := false }

/-- The initial Terminal component state. -/
def initTerminal : TerminalState :=
  { lines := []
    currentDir := ("/home/user")
    isExecuting := false
    history := []
    historyIndex := -1
    confirmDialog := ⟨false, (""), none⟩ }

/-- Environment in which analyze yields the critical rm analysis. -/
def envRm : Env :=
  { analyzeResult := Except.ok rmAnalysis
    cdResult := Except.ok ("/root")
    executeOutcome := Except.ok [] }

/-- Environment in which analyze yields the safe ls analysis. -/
def envLs : Env :=
  { analyzeResult := Except.ok lsAnalysis
    cdResult := Except.ok ("/root")
    executeOutcome := Except.ok [] }

/-- Environment in which analyze throws. -/
def envAnalyzeDown : Env :=
  { analyzeResult := Except.error ("Network Error")
    cdResult := Except.ok ("/root")
    executeOutcome := Except.ok [] }

/-- App-level fixtures. -/
def appInit : AppState :=
  { activeTab := ("terminal")
    approvalModalOpen := false
    pendingCommand := none
    commandAnalysis := none
    approvalLoading := false }

/-- A critical local analysis, as rendered by the ApprovalModal. -/
def rmAppAnalysis : AppCommandAnalysis :=
  { risk_level := AppRiskLevel.critical
    risk_score := 95
    category := ("filesystem")
    actions := [("delete")]
    affected_paths := [("/tmp/project")]
    reversible := false
    requires_sudo := false
    warnings := [("Recursive deletion")]
    recommendations := [("Create a backup first")] }

/-- A medium-risk, non-reversible local analysis. -/
def mvAppAnalysis : AppCommandAnalysis :=
  { risk_level := AppRiskLevel.medium
    risk_score := 50
    category := ("filesystem")
    actions := [("move")]
    affected_paths := [("/etc/passwd")]
    reversible := false
    requires_sudo := true
    warnings := []
    recommendations := [] }

/-- App state with the critical rm command pending approval. -/
def appPending : AppState :=
  { appInit with
      approvalModalOpen := true
      pendingCommand := some ("rm -rf /tmp/project")
      commandAnalysis := some rmAppAnalysis }

/-- A Terminal state whose confirmation dialog is open on the critical
rm analysis. -/
def dialogOpenState : TerminalState :=
  { initTerminal with
      confirmDialog := ⟨true, ("rm -rf /tmp/project"), some rmAnalysis⟩ }

/-- A Terminal state saturated at the concurrency ceiling. -/
def busyTerminal : TerminalState :=
  { initTerminal with isExecuting := true }

/-! ## Helper lemmas -/

/-- Whatever execute streams back or throws, the execution phase issues
exactly one execute request, with create_backup hardcoded to true. -/
theorem runExecution_calls (env : Env) (st : TerminalState) (command : String)
    (confirmed : Bool) :
    (runExecution env st command confirmed).2 =
      [ApiCall.executeReq command confirmed true] := by
  unfold runExecution
  cases env.executeOutcome <;> rfl

/-- The onData dispatcher never touches the command history. -/
theorem processEvent_history (st : TerminalState) (d : CommandResult) :
    (processEvent st d).history = st.history := by
  unfold processEvent addLine
  split_ifs <;> rfl

/-- Folding the dispatcher over a stream never touches the history. -/
theorem foldl_processEvent_history (events : List CommandResult)
    (st : TerminalState) :
    (events.foldl processEvent st).history = st.history := by
  induction events generalizing st with
  | nil => rfl
  | cons e es ih => rw [List.foldl_cons, ih, processEvent_history]

/-- The execution phase never touches the history. -/
theorem runExecution_history (env : Env) (st : TerminalState) (command : String)
    (confirmed : Bool) :
    (runExecution env st command confirmed).1.history = st.history := by
  unfold runExecution
  cases env.executeOutcome <;>
    simp [foldl_processEvent_history, addLine]

/-! ## Claim theorems -/

/-- C1: for every command whose analysis has requires_confirmation =
true, handleCommand invoked with confirmed = false opens the
confirmation dialog on that command and returns having issued only the
analyze request — in particular no execute request (hence no spawn and
no backup) until an approval re-invokes handleCommand with
confirmed = true. -/
theorem handleCommand_unconfirmed_opens_dialog_no_execute
    (env : Env) (st : TerminalState) (command : String) (a : CommandAnalysis)
    (hblank : jsTrim command ≠ (""))
    (hclear : jsTrim command ≠ ("clear")) (hcls : jsTrim command ≠ ("cls"))
    (hcd : jsStartsWith (jsTrim command) ("cd ") = false)
    (hana : env.analyzeResult = Except.ok a)
    (hreq : a.requires_confirmation = true) :
    (handleCommand env st command false).1.confirmDialog =
      ⟨true, command, some a⟩ ∧
    (handleCommand env st command false).2 = [ApiCall.analyzeReq command] := by
  have h1 : ¬(jsTrim command = ("clear") ∨ jsTrim command = ("cls")) :=
    not_or.mpr ⟨hclear, hcls⟩
  simp only [handleCommand, if_neg hblank, if_neg h1, hcd, Bool.false_eq_true,
    if_false, hana, hreq, if_true, Bool.not_eq_true]
  exact ⟨trivial, trivial⟩

/-- C1 witness: the critical rm command opens the dialog and only the
analyze request is issued. -/
theorem handleCommand_unconfirmed_opens_dialog_no_execute_witness :
    (handleCommand envRm initTerminal ("rm -rf /tmp/project") false).1.confirmDialog =
      ⟨true, ("rm -rf /tmp/project"), some rmAnalysis⟩ ∧
    (handleCommand envRm initTerminal ("rm -rf /tmp/project") false).2 =
      [ApiCall.analyzeReq ("rm -rf /tmp/project")] :=
  handleCommand_unconfirmed_opens_dialog_no_execute envRm initTerminal
    ("rm -rf /tmp/project") rmAnalysis (by decide) (by decide) (by decide)
    (by decide) rfl rfl

/-- C6: an analyzer failure never halts the pipeline: when
terminalApi.analyze throws during an unconfirmed submission,
handleCommand logs the failure and still issues the execute request for
that command. -/
theorem handleCommand_analyzeFailure_still_executes
    (env : Env) (st : TerminalState) (command : String) (e : String)
    (hblank : jsTrim command ≠ (""))
    (hclear : jsTrim command ≠ ("clear")) (hcls : jsTrim command ≠ ("cls"))
    (hcd : jsStartsWith (jsTrim command) ("cd ") = false)
    (hana : env.analyzeResult = Except.error e) :
    (handleCommand env st command false).2 =
      [ApiCall.analyzeReq command, ApiCall.executeReq command false true] := by
  have h1 : ¬(jsTrim command = ("clear") ∨ jsTrim command = ("cls")) :=
    not_or.mpr ⟨hclear, hcls⟩
  simp only [handleCommand, if_neg hblank, if_neg h1, hcd, Bool.false_eq_true,
    if_false, hana, Bool.false_eq_true, runExecution_calls]

/-- C6 witness: with the analyzer down, the ls command is still
executed. -/
theorem handleCommand_analyzeFailure_still_executes_witness :
    (handleCommand envAnalyzeDown initTerminal ("ls -la") false).2 =
      [ApiCall.analyzeReq ("ls -la"), ApiCall.executeReq ("ls -la") false true] :=
  handleCommand_analyzeFailure_still_executes envAnalyzeDown initTerminal
    ("ls -la") ("Network Error") (by decide) (by decide) (by decide)
    (by decide) rfl

/-- C9: clear, cls and cd commands are handled as built-ins: for every
confirmed flag value, the trace of handleCommand contains no analyze
request and no execute request — they bypass risk analysis and the
confirmation gate entirely. -/
theorem handleCommand_builtins_bypass_analyze_execute
    (env : Env) (st : TerminalState) (command : String) (confirmed : Bool)
    (hb : jsTrim command = ("clear") ∨ jsTrim command = ("cls") ∨
          jsStartsWith (jsTrim command) ("cd ") = true) :
    (∀ c, ApiCall.analyzeReq c ∉ (handleCommand env st command confirmed).2) ∧
    (∀ c b₁ b₂, ApiCall.executeReq c b₁ b₂ ∉ (handleCommand env st command confirmed).2) := by
  have hblank : jsTrim command ≠ ("") := by
    rcases hb with h | h | h
    · rw [h]; decide
    · rw [h]; decide
    · intro hx
      rw [hx] at h
      exact absurd h (by decide)
  rcases hb with h | h | h
  · have h1 : jsTrim command = ("clear") ∨ jsTrim command = ("cls") := Or.inl h
    simp [handleCommand, if_neg hblank, if_pos h1]
  · have h1 : jsTrim command = ("clear") ∨ jsTrim command = ("cls") := Or.inr h
    simp [handleCommand, if_neg hblank, if_pos h1]
  · by_cases h1 : jsTrim command = ("clear") ∨ jsTrim command = ("cls")
    · simp [handleCommand, if_neg hblank, if_pos h1]
    · cases hc : env.cdResult <;>
        simp [handleCommand, if_neg hblank, if_neg h1, h, hc]

/-- C9 witness: a cd command issues only the cd request; analyze and
execute are never reached. -/
theorem handleCommand_builtins_bypass_analyze_execute_witness :
    (∀ c, ApiCall.analyzeReq c ∉ (handleCommand envRm initTerminal ("cd /tmp") true).2) ∧
    (∀ c b₁ b₂, ApiCall.executeReq c b₁ b₂ ∉ (handleCommand envRm initTerminal ("cd /tmp") true).2) :=
  handleCommand_builtins_bypass_analyze_execute envRm initTerminal
    ("cd /tmp") true (Or.inr (Or.inr (by decide)))

/-- In every branch taken on non-blank input, the final history is the
previous history with all occurrences of the command filtered out and
the command appended once. -/
theorem handleCommand_history_eq (env : Env) (st : TerminalState)
    (command : String) (confirmed : Bool) (h : jsTrim command ≠ ("")) :
    (handleCommand env st command confirmed).1.history =
      st.history.filter (fun c => c ≠ command) ++ [command] := by
  unfold handleCommand
  rw [if_neg h]
  cases hc : env.cdResult <;> cases ha : env.analyzeResult <;>
    simp only [hc, ha] <;>
    split_ifs <;>
    simp [runExecution, addLine, foldl_processEvent_history] <;>
    (try cases he : env.executeOutcome) <;>
    simp [addLine, foldl_processEvent_history]

/-- C10: the history is duplicate-free-by-construction for the submitted
command: a whitespace-only input leaves the history unchanged, while a
non-blank command ends up in the history exactly once, as its last
element, earlier occurrences having been removed; counts of other
entries are untouched, so a duplicate-free history stays duplicate-free. -/
theorem handleCommand_history_dedup (env : Env) (st : TerminalState)
    (command : String) (confirmed : Bool) :
    (jsTrim command = ("") → (handleCommand env st command confirmed).1.history = st.history) ∧
    (jsTrim command ≠ ("") →
      ((handleCommand env st command confirmed).1.history).count command = 1 ∧
      ((handleCommand env st command confirmed).1.history).getLast? = some command ∧
      (∀ x, x ≠ command →
        ((handleCommand env st command confirmed).1.history).count x = st.history.count x) ∧
      (st.history.Nodup → ((handleCommand env st command confirmed).1.history).Nodup)) := by
  constructor
  · intro hb
    unfold handleCommand
    rw [if_pos hb]
  · intro h
    rw [handleCommand_history_eq env st command confirmed h]
    refine ⟨?_, ?_, ?_, ?_⟩
    · rw [List.count_append]
      have h0 : (st.history.filter (fun c => c ≠ command)).count command = 0 := by
        rw [List.count_eq_zero]
        intro hmem
        rcases List.mem_filter.mp hmem with ⟨_, hne⟩
        simp at hne
      rw [h0]
      simp
    · simp
    · intro x hx
      have hfilter : ∀ l : List String,
          List.count x (l.filter (fun c => decide (c ≠ command))) = List.count x l := by
        intro l
        induction l with
        | nil => rfl
        | cons a t ih =>
            by_cases hac : a = command
            · subst hac
              rw [List.filter_cons_of_neg (by simp)]
              rw [ih, List.count_cons]
              simp [Ne.symm hx]
            · rw [List.filter_cons_of_pos (by simp [hac])]
              rw [List.count_cons, List.count_cons, ih]
      rw [List.count_append, hfilter]
      simp [List.count_cons, hx]
    · intro hnd
      rw [List.nodup_append]
      refine ⟨hnd.filter _, List.nodup_singleton command, ?_⟩
      intro a ha hmem
      rcases List.mem_filter.mp ha with ⟨_, hne⟩
      rcases List.mem_singleton.mp hmem with rfl
      simp at hne

/-- C10 witness: submitting ls, then the duplicate ls again, leaves one
trailing occurrence; a whitespace-only input changes nothing. -/
theorem handleCommand_history_dedup_witness :
    ((handleCommand envLs initTerminal ("ls -la") false).1.history).count ("ls -la") = 1 ∧
    ((handleCommand envLs initTerminal ("ls -la") false).1.history).getLast? = some ("ls -la") ∧
    (handleCommand envLs initTerminal ("   ") false).1.history = initTerminal.history :=
  ⟨((handleCommand_history_dedup envLs initTerminal ("ls -la") false).2 (by decide)).1,
   ((handleCommand_history_dedup envLs initTerminal ("ls -la") false).2 (by decide)).2.1,
   (handleCommand_history_dedup envLs initTerminal ("   ") false).1 (by decide)⟩

/-- C3 counterexample: approving with the create-backup checkbox set to
false still produces an execute request whose create_backup field is
true — the flag chosen at approval is not propagated (handleApproveCommand
drops its argument and terminalApi.execute hardcodes create_backup). -/
theorem handleApproveCommand_false_backup_counterexample :
    (handleApproveCommand (Except.ok ()) appPending false).2 =
      [ApiCall.executeReq ("rm -rf /tmp/project") true true] := rfl

/-- C3 amended: the createBackup argument of handleApproveCommand is
ignored; whatever the checkbox value, the one execute request issued for
the pending command carries confirmed = true and create_backup = true. -/
theorem handleApproveCommand_always_sends_backup_true
    (exe : Except String Unit) (st : AppState) (b : Bool) (pending : String)
    (hp : st.pendingCommand = some pending) :
    (handleApproveCommand exe st b).2 =
      [ApiCall.executeReq pending true true] := by
  unfold handleApproveCommand
  rw [hp]
  cases exe <;> rfl

/-- C3 amended witness: with the rm command pending, approval under
either checkbox value issues the same request. -/
theorem handleApproveCommand_always_sends_backup_true_witness :
    appPending.pendingCommand = some ("rm -rf /tmp/project") ∧
    (handleApproveCommand (Except.ok ()) appPending true).2 =
      [ApiCall.executeReq ("rm -rf /tmp/project") true true] :=
  ⟨rfl, handleApproveCommand_always_sends_backup_true (Except.ok ()) appPending
    true ("rm -rf /tmp/project") rfl⟩

/-- C4 counterexample: a non-reversible command of medium risk does not
get the approval modal: handleRunCommand leaves approvalModalOpen false
although reversible = false, so the gate condition is not
(risk high-or-critical) or (not reversible). -/
theorem handleRunCommand_medium_irreversible_not_gated :
    mvAppAnalysis.reversible = false ∧
    (mvAppAnalysis.risk_level = AppRiskLevel.high ∨
     mvAppAnalysis.risk_level = AppRiskLevel.critical) = False ∧
    (handleRunCommand (Except.ok mvAppAnalysis) appInit
      ("mv /etc/passwd /tmp")).1.approvalModalOpen = false := by
  refine ⟨rfl, ?_, rfl⟩
  simp [mvAppAnalysis]

/-- C4 amended: the approval gate of handleRunCommand is interposed
exactly when the analysis reports high or critical risk; the reversible
field is not consulted.  (The requires_confirmation field itself is
computed by the backend, which is not among the sources.) -/
theorem handleRunCommand_gate_iff_high_or_critical
    (a : AppCommandAnalysis) (st : AppState) (command : String)
    (h : st.approvalModalOpen = false) :
    (handleRunCommand (Except.ok a) st command).1.approvalModalOpen =
      decide (a.risk_level = AppRiskLevel.high ∨
              a.risk_level = AppRiskLevel.critical) := by
  unfold handleRunCommand
  by_cases hc : a.risk_level = AppRiskLevel.high ∨
                a.risk_level = AppRiskLevel.critical
  · simp [hc]
  · simp [hc, h]

/-- C4 amended witness: the critical analysis opens the modal from the
initial app state. -/
theorem handleRunCommand_gate_iff_high_or_critical_witness :
    appInit.approvalModalOpen = false ∧
    (handleRunCommand (Except.ok rmAppAnalysis) appInit
      ("rm -rf /tmp/project")).1.approvalModalOpen =
      decide (rmAppAnalysis.risk_level = AppRiskLevel.high ∨
              rmAppAnalysis.risk_level = AppRiskLevel.critical) :=
  ⟨rfl, handleRunCommand_gate_iff_high_or_critical rmAppAnalysis appInit
    ("rm -rf /tmp/project") rfl⟩

/-- C2 counterexample: the approval path is a plain function of state —
handleConfirmExecution takes no clock and compares no timestamps — so
approving a critical command immediately after the dialog opens (the
claimed 5-second cool-down still running) already issues the execute
request. -/
theorem handleConfirmExecution_immediate_execute_counterexample :
    rmAnalysis.risk_level = RiskLevel.critical ∧
    (handleConfirmExecution envRm dialogOpenState).2 =
      [ApiCall.executeReq ("rm -rf /tmp/project") true true] :=
  ⟨rfl, by decide⟩

/-- C2 amended: the 5-second cool-down exists only inside the
ApprovalModal UI: opening the modal on a critical analysis initializes
the countdown to 5 and the Approve button is disabled while the
countdown is positive (and enabled once it is null); the approval
handlers themselves perform no elapsed-time check. -/
theorem cooldown_is_ui_only (a : AppCommandAnalysis) (n : Nat)
    (hcrit : a.risk_level = AppRiskLevel.critical) (hn : 0 < n) :
    initialCountdown true (some a) = some 5 ∧
    approveButtonDisabled false (some n) = true ∧
    approveButtonDisabled false none = false := by
  refine ⟨?_, ?_, rfl⟩
  · simp [initialCountdown, hcrit]
  · simp [approveButtonDisabled, hn]

/-- C2 amended witness: the critical rm analysis arms a 5-tick
countdown during which the Approve button is disabled. -/
theorem cooldown_is_ui_only_witness :
    rmAppAnalysis.risk_level = AppRiskLevel.critical ∧ 0 < 5 ∧
    initialCountdown true (some rmAppAnalysis) = some 5 ∧
    approveButtonDisabled false (some 5) = true :=
  ⟨rfl, by decide,
   (cooldown_is_ui_only rmAppAnalysis 5 rfl (by decide)).1,
   (cooldown_is_ui_only rmAppAnalysis 5 rfl (by decide)).2.1⟩

/-- C5 counterexample: handleCommand performs no ceiling check and emits
no busy signal — invoked while isExecuting is already true, a second
submission proceeds straight to analysis and execution instead of being
rejected. -/
theorem handleCommand_while_executing_counterexample :
    busyTerminal.isExecuting = true ∧
    (handleCommand envLs busyTerminal ("echo hi") false).2 =
      [ApiCall.analyzeReq ("echo hi"), ApiCall.executeReq ("echo hi") false true] :=
  ⟨rfl, by decide⟩

/-- C5 amended: the one-command-at-a-time ceiling is enforced only by
the interface controls: while isExecuting is true the input TextField
and the send button are both disabled, so no second submission can be
entered through the UI; handleCommand itself has no guard and no busy
signal. -/
theorem ui_blocks_second_submission (st : TerminalState) (input : String)
    (h : st.isExecuting = true) :
    inputFieldDisabled st = true ∧ sendButtonDisabled st input = true := by
  unfold inputFieldDisabled sendButtonDisabled
  simp [h]

/-- C5 amended witness: with a command in flight, both controls are
disabled. -/
theorem ui_blocks_second_submission_witness :
    busyTerminal.isExecuting = true ∧
    inputFieldDisabled busyTerminal = true ∧
    sendButtonDisabled busyTerminal ("echo hi") = true :=
  ⟨rfl, (ui_blocks_second_submission busyTerminal ("echo hi") rfl).1,
   (ui_blocks_second_submission busyTerminal ("echo hi") rfl).2⟩

/-- C7 counterexample: the CommandResult discriminator union of the
shared types module contains confirmation_required, a fifth event type
outside the claimed set. -/
theorem commandResult_fifth_type_counterexample :
    ("confirmation_required") ∈ commandResultTypeStrings ∧
    ("confirmation_required") ∉
      [("output"), ("execution_start"), ("execution_complete"), ("error")] := by
  decide

/-- C7 amended: the discriminator union has five members (it adds
confirmation_required); the Terminal onData dispatcher consumes only
output, execution_complete, error and execution_start — an event that
changes the terminal state has one of those four types, and any
confirmation_required event is silently ignored. -/
theorem processEvent_consumes_only_four (st : TerminalState) (d : CommandResult)
    (h : processEvent st d ≠ st) :
    d.type = CommandResultType.output ∨
    d.type = CommandResultType.execution_complete ∨
    d.type = CommandResultType.error ∨
    d.type = CommandResultType.execution_start := by
  cases ht : d.type with
  | confirmation_required =>
      exfalso
      apply h
      unfold processEvent
      rw [ht]
      simp
  | output => exact Or.inl rfl
  | execution_complete => exact Or.inr (Or.inl rfl)
  | error => exact Or.inr (Or.inr (Or.inl rfl))
  | execution_start => exact Or.inr (Or.inr (Or.inr rfl))

/-- C7 amended witness: an output chunk changes the terminal state and
its type is among the four consumed ones. -/
theorem processEvent_consumes_only_four_witness :
    processEvent initTerminal
      { type := CommandResultType.output, content := some ("hi") } ≠ initTerminal ∧
    ({ type := CommandResultType.output, content := some ("hi") } :
      CommandResult).type = CommandResultType.output :=
  ⟨by decide,
   match processEvent_consumes_only_four initTerminal
     { type := CommandResultType.output, content := some ("hi") } (by decide) with
   | Or.inl h => h
   | Or.inr (Or.inl h) => by exact absurd h (by decide)
   | Or.inr (Or.inr (Or.inl h)) => by exact absurd h (by decide)
   | Or.inr (Or.inr (Or.inr h)) => by exact absurd h (by decide)⟩

/-- C8 counterexample: the shared types module consumed by the Terminal
has no safe risk level and no risk_score field — the §3 shape does not
hold for the CommandAnalysis the client imports. -/
theorem typesCommandAnalysis_shape_counterexample :
    ("safe") ∉ typesRiskLevelStrings ∧
    ("risk_score") ∉ typesCommandAnalysisFields := by
  decide

/-- C8 amended: the §3 shape — five-valued risk_level including safe,
with risk_score, category, actions, affected_paths, reversible,
requires_sudo, warnings, recommendations — is the shape of the local
CommandAnalysis interfaces duplicated in App.tsx and ApprovalModal.tsx;
the shared types-module CommandAnalysis imported by the Terminal instead
has the four-valued risk_level (no safe) and the fields command,
is_risky, risk_level, reason, affected_paths, requires_confirmation,
backup_recommended. -/
theorem commandAnalysis_two_shapes :
    (∀ r : RiskLevel, RiskLevel.toApp r ≠ AppRiskLevel.safe) ∧
    modalRiskLevelStrings = ("safe") :: typesRiskLevelStrings ∧
    ("risk_score") ∈ modalCommandAnalysisFields ∧
    ("reversible") ∈ modalCommandAnalysisFields ∧
    ("risk_score") ∉ typesCommandAnalysisFields ∧
    ("reversible") ∉ typesCommandAnalysisFields := by
  refine ⟨?_, rfl, by decide, by decide, by decide, by decide⟩
  intro r
  cases r <;> decide

/-- C8 amended witness: the critical level of the shared union embeds to
the local union without reaching safe. -/
theorem commandAnalysis_two_shapes_witness :
    RiskLevel.toApp RiskLevel.critical ≠ AppRiskLevel.safe :=
  (commandAnalysis_two_shapes).1 RiskLevel.critical

end CoreAstra
